import Mathlib

/-!
Verification development for the execution core of the `spy` repository:
identifiers (`src/spy/fqn.py`), the value/type model and VM runtime
(`src/spy/vm/vm.py`), and the tree-walking AST evaluator
(`src/spy/vm/astframe.py`).

Python source files that the repository snapshot does not provide
(`spy/vm/object.py`, `spy/vm/typechecker.py`, `spy/irgen/symtable.py`,
the `W_UserFunction`/`W_BuiltinFunction` subclasses and `vm.store_global`)
are modelled from the specification; every such definition carries a doc
comment starting with `Modelled from the spec:`.
-/

namespace Spy

/-! ### Identifiers: `src/spy/fqn.py` -/

/-- Source `FQN` from `src/spy/fqn.py`: a fully qualified name with a module part
and an attribute part (`modname`, `attr`). -/
structure FQN where
  modname : String
  attr : String
deriving DecidableEq

/-- The `fullname` property of `FQN`: the string `modname ++ "::" ++ attr`. -/
def FQN.fullname (f : FQN) : String := f.modname ++ "::" ++ f.attr

/-- Python `FQN.__eq__`: two `FQN`s compare equal iff their `fullname`
strings are equal (the comparison is on the joined textual form, not on
the component pair). -/
def FQN.pyEq (a b : FQN) : Bool := a.fullname == b.fullname

/-- Python `FQN.__hash__`: `hash(self.fullname)`, a function of the
`fullname` string only. -/
def FQN.pyHash (f : FQN) : UInt64 := f.fullname.hash

/-- Number of non-overlapping occurrences of the two-character separator
`"::"` in a character list, scanning left to right: the behaviour of
Python's `fullname.count('::')` used in the `FQN` constructor assert. -/
def countSep : List Char → Nat
  | [] => 0
  | [_] => 0
  | c₁ :: c₂ :: rest =>
    if c₁ = ':' ∧ c₂ = ':' then countSep rest + 1
    else countSep (c₂ :: rest)

/-- Splitting a character list at every non-overlapping occurrence of the
separator `"::"` scanning left to right: the behaviour of Python's
`fullname.split('::')` used when an `FQN` is built from a full name. -/
def splitSep : List Char → List (List Char)
  | [] => [[]]
  | [c] => [[c]]
  | c₁ :: c₂ :: rest =>
    if c₁ = ':' ∧ c₂ = ':' then [] :: splitSep rest
    else
      match splitSep (c₂ :: rest) with
      | h :: t => (c₁ :: h) :: t
      | [] => [[c₁]]

/-- Whether the last character of a list is a colon. -/
def lastIsColon : List Char → Bool
  | [] => false
  | [c] => c == ':'
  | _ :: c :: rest => lastIsColon (c :: rest)

/-- Whether the first character of a list is a colon. -/
def headIsColon : List Char → Bool
  | [] => false
  | c :: _ => c == ':'

/-- The `FQN.__init__(fullname)` parsing path: assert that the full name
contains exactly one `"::"` occurrence, then split it into the module
name and the attribute. Returns `none` when the assert would fail. -/
def parseFQN (s : String) : Option FQN :=
  if countSep s.toList = 1 then
    match splitSep s.toList with
    | [m, a] => some ⟨⟨m⟩, ⟨a⟩⟩
    | _ => none
  else none

/-! ### The type model

`W_Type` is defined in `spy/vm/object.py`, which is not part of the
snapshot; its shape is reconstructed from its uses in `src/spy/vm/vm.py`,
`src/spy/vm/astframe.py` and `src/spy/vm/function.py`: the builtin types
in the `Builtins` class of `vm.py` plus function types
(`W_FuncType.make(color, w_restype, **params)` in `astframe.py`).
Each distinct type is its own constructor, so equality of the embedded
values corresponds to Python object identity of the interned type
objects. -/

/-- The `color` tag carried by function types and symbols
(`funcdef.color`, `sym.color` in `src/spy/vm/astframe.py`). -/
inductive Color where
  | red
  | blue
deriving DecidableEq

mutual
/-- Types-as-values: the builtin types of `Builtins` (`src/spy/vm/vm.py`
lines 17-27) plus function types. -/
inductive W_Type where
  | object
  | type_
  | i32
  | bool
  | void
  | str
  | func (ft : W_FuncType)

/-- A function type: color, ordered parameter list (name, type) and the
result type, as built by `W_FuncType.make` in
`ASTFrame.exec_stmt_FuncDef`. -/
inductive W_FuncType where
  | make (color : Color) (params : List (String × W_Type)) (w_restype : W_Type)
end

/-- Parameter list of a function type. -/
def W_FuncType.params : W_FuncType → List (String × W_Type)
  | .make _ p _ => p

/-- Result type of a function type. -/
def W_FuncType.w_restype : W_FuncType → W_Type
  | .make _ _ r => r

/-- Color of a function type. -/
def W_FuncType.color : W_FuncType → Color
  | .make c _ _ => c

/-- The identity test `w_type is B.w_void` used by `ASTFrame.run`
(`src/spy/vm/astframe.py` line 77): only the interned void type object
passes. -/
def W_Type.isVoid : W_Type → Bool
  | .void => true
  | _ => false

/-- The identity test `w_type is B.w_i32`. -/
def W_Type.isI32 : W_Type → Bool
  | .i32 => true
  | _ => false

mutual
/-- Type identity (`t1 is t2` on the interned Python type objects),
decided structurally: in the embedding every type object is represented
by a unique value. -/
def tyEq : W_Type → W_Type → Bool
  | .object, .object => true
  | .type_, .type_ => true
  | .i32, .i32 => true
  | .bool, .bool => true
  | .void, .void => true
  | .str, .str => true
  | .func f₁, .func f₂ => ftyEq f₁ f₂
  | _, _ => false

/-- Identity of function types, component-wise. -/
def ftyEq : W_FuncType → W_FuncType → Bool
  | .make c₁ p₁ r₁, .make c₂ p₂ r₂ => c₁ == c₂ && paramsEq p₁ p₂ && tyEq r₁ r₂

/-- Identity of parameter lists, component-wise. -/
def paramsEq : List (String × W_Type) → List (String × W_Type) → Bool
  | [], [] => true
  | (n₁, t₁) :: p₁, (n₂, t₂) :: p₂ => n₁ == n₂ && tyEq t₁ t₂ && paramsEq p₁ p₂
  | _, _ => false
end

/-! ### Errors

The error classes of `spy/errors.py` (`SPyTypeError`, `SPyRuntimeError`,
`SPyNameError`), plus the outcomes of a failing Python `assert`, a plain
`raise Exception(...)`, and exhaustion of the step budget of the fuelled
evaluator. -/

/-- Failure outcomes of the embedded runtime. -/
inductive SpyError where
  | spyTypeError (msg : String)
  | spyRuntimeError (msg : String)
  | spyNameError (msg : String)
  | assertionError (msg : String)
  | exception (msg : String)
  | outOfFuel
deriving DecidableEq

/-! ### Host-level literals -/

/-- The host (interpreter-level) literals that `SPyVM.wrap` accepts and
that AST constants carry: integers, booleans, text and the absence value
`None` (`src/spy/vm/vm.py` lines 100-119, `src/spy/vm/astframe.py` lines
191-198). -/
inductive HostLit where
  | int (n : Int)
  | bool (b : Bool)
  | str (s : String)
  | none
deriving DecidableEq

/-! ### Symbols and the AST

`Symbol` lives in `spy/irgen/symtable.py`, which is not in the snapshot. -/

/-- Modelled from the spec: the per-name resolution record produced by the
excluded scope-analysis pass, carrying the classification used by
`ASTFrame.eval_expr_Name` and `ASTFrame.exec_stmt_Assign`: a global has
`fqn` set, a local has `is_local` true, and a captured name records the
closure `level` to read; `color` tags the binding. -/
structure Symbol where
  name : String
  fqn : Option FQN
  is_local : Bool
  level : Nat
  color : Color

/-- Comparison kinds of `ast.CompareOp` as dispatched by
`ASTFrame.eval_expr_CompareOp`. -/
inductive CmpOp where
  | eq
  | ne
  | lt
  | le
  | gt
  | ge
deriving DecidableEq

mutual
/-- The expression nodes of the AST that the verified claims exercise,
as consumed by `ASTFrame.eval_expr` (`src/spy/vm/astframe.py`):
constants, name references and integer comparisons.  (The remaining
kinds — string operators lowered to helper calls, `Call`, `GetItem`,
`FQNConst` — are not needed by any claim and are omitted.) -/
inductive Expr where
  | constant (lit : HostLit)
  | name (id : String)
  | cmpop (op : CmpOp) (left right : Expr)

/-- The statement nodes executed by `ASTFrame.exec_stmt`: `Return`,
nested `FuncDef`, `Assign`, expression statements, `If` and `While`. -/
inductive Stmt where
  | ret (value : Expr)
  | funcDef (fd : FuncDef)
  | assign (target : String) (value : Expr)
  | exprStmt (value : Expr)
  | ifS (test : Expr) (then_body else_body : List Stmt)
  | whileS (test : Expr) (body : List Stmt)

/-- Source `ast.FuncDef`: name, arguments (name and type expression), return
type expression, color, body, and the symbol table produced by the
scope-analysis pass. -/
inductive FuncDef where
  | make (name : String) (args : List (String × Expr)) (return_type : Expr)
         (color : Color) (body : List Stmt) (symtable : List (String × Symbol))
end

/-- Function name of a `FuncDef`. -/
def FuncDef.name : FuncDef → String
  | .make n _ _ _ _ _ => n

/-- Argument list of a `FuncDef`. -/
def FuncDef.args : FuncDef → List (String × Expr)
  | .make _ a _ _ _ _ => a

/-- Return-type expression of a `FuncDef`. -/
def FuncDef.return_type : FuncDef → Expr
  | .make _ _ r _ _ _ => r

/-- Color of a `FuncDef`. -/
def FuncDef.color : FuncDef → Color
  | .make _ _ _ c _ _ => c

/-- Body of a `FuncDef`. -/
def FuncDef.body : FuncDef → List Stmt
  | .make _ _ _ _ b _ => b

/-- Symbol table of a `FuncDef`. -/
def FuncDef.symtable : FuncDef → List (String × Symbol)
  | .make _ _ _ _ _ s => s

/-- Source `symtable.lookup(name)`: find the `Symbol` recorded for a name. -/
def symLookup (tab : List (String × Symbol)) (n : String) : Option Symbol :=
  (tab.find? (fun p => p.1 == n)).map (·.2)

/-! ### Values -/

/-- Source `W_ASTFunc` (`spy/vm/function.py` of the AST-evaluator revision, used
by `src/spy/vm/astframe.py`): an interpreted function value carrying its
fully qualified name, its closure — an ordered sequence of references to
the namespaces of enclosing activations, outermost first — its function
type and its definition.  A namespace reference is an index into the
store of namespaces held by the VM state: closures share the defining
frame's namespace by reference, not by copy. -/
structure W_ASTFunc where
  fqn : FQN
  closure : List Nat
  w_functype : W_FuncType
  funcdef : FuncDef

/-- The universal value representation `W_Object` (defined in the absent
`spy/vm/object.py`), reconstructed from its uses in `src/spy/vm/vm.py`:
32-bit integers, the two interned booleans, text, the interned absence
value `w_None`, types-as-values, and interpreted function values.
A `W_bool` in the running system is always one of the two interned
singletons `B.w_True`/`B.w_False` (`SPyVM.wrap` only ever produces
those), so in the embedding `bool true` and `bool false` are exactly the
singletons and Python object identity coincides with equality. -/
inductive W_Object where
  | i32 (value : Int)
  | bool (b : Bool)
  | str (s : String)
  | none
  | type (t : W_Type)
  | astfunc (f : W_ASTFunc)

/-- Source `B.w_True`, the interned true singleton. -/
def w_True : W_Object := .bool true

/-- Source `B.w_False`, the interned false singleton. -/
def w_False : W_Object := .bool false

/-- Source `B.w_None`, the interned absence value. -/
def w_None : W_Object := .none

/-- Source `SPyVM.is_True` (`src/spy/vm/vm.py` lines 94-95): object identity
with the interned `Builtins.w_True`. -/
def is_True : W_Object → Bool
  | .bool true => true
  | _ => false

/-- Source `SPyVM.is_False` (`src/spy/vm/vm.py` lines 97-98): object identity
with the interned `Builtins.w_False`. -/
def is_False : W_Object → Bool
  | .bool false => true
  | _ => false

/-- Source `SPyVM.wrap` (`src/spy/vm/vm.py` lines 100-119) restricted to the
host literals enumerated there: `None` maps to the interned `w_None`,
integers to `W_i32`, booleans to the interned singletons, strings to
`W_str`. -/
def wrap : HostLit → W_Object
  | .int n => .i32 n
  | .bool b => if b then w_True else w_False
  | .str s => .str s
  | .none => w_None

/-- Modelled from the spec: `SPyVM.unwrap` delegates to `spy_unwrap` in
the absent `spy/vm/object.py`; per the spec every scalar/boolean/text/
absence value produces its host-level representation, and other values
have no host representation here. -/
def unwrap : W_Object → Except SpyError HostLit
  | .i32 n => .ok (.int n)
  | .bool b => .ok (.bool b)
  | .str s => .ok (.str s)
  | .none => .ok (.none)
  | _ => .error (.exception "cannot unwrap")

/-- Source `SPyVM.unwrap_i32` (`src/spy/vm/vm.py` lines 129-132): raises
`Exception('Type mismatch')` unless the value is a `W_i32`, else returns
the carried integer. -/
def unwrap_i32 : W_Object → Except SpyError Int
  | .i32 n => .ok n
  | _ => .error (.exception "Type mismatch")

/-- Source `SPyVM.dynamic_type` (`src/spy/vm/vm.py` lines 80-82): the dynamic
type of a value, per `spy_get_w_type` of each variant. -/
def dynamic_type : W_Object → W_Type
  | .i32 _ => .i32
  | .bool _ => .bool
  | .str _ => .str
  | .none => .void
  | .type _ => .type_
  | .astfunc f => .func f.w_functype

/-- Source `SPyVM.is_compatible_type` (`src/spy/vm/vm.py` lines 142-145):
`self.dynamic_type(w_arg) is w_type` — exact dynamic-type identity. -/
def is_compatible_type (w_arg : W_Object) (w_type : W_Type) : Bool :=
  tyEq (dynamic_type w_arg) w_type

/-! ### Namespaces and the VM state -/

/-- A `Namespace` (`spy/vm/function.py` of the AST-evaluator revision):
a mapping from names to values holding one frame's locals; `ASTFrame`
uses it as a Python dict (`self._locals`). -/
abbrev Namespace := List (String × W_Object)

/-- Dict read: `ns.get(name)`. -/
def nsGet (ns : Namespace) (n : String) : Option W_Object :=
  (ns.find? (fun p => p.1 == n)).map (·.2)

/-- Dict write: `ns[name] = value` (update in place, insert if absent). -/
def nsSet (ns : Namespace) (n : String) (v : W_Object) : Namespace :=
  match ns with
  | [] => [(n, v)]
  | (k, w) :: rest => if k == n then (n, v) :: rest else (k, w) :: nsSet rest n v

/-- The mutable state owned by `SPyVM` (`src/spy/vm/vm.py` lines 40-57):
the global type table, the global value table and the registered module
names — plus the arena of live frame namespaces (`store`).  Python
namespaces are heap objects shared by reference between a frame and the
closures created inside it; the embedding makes the heap explicit as a
list of namespaces indexed by position, exactly as the spec's design
note prescribes for shared-by-reference aliasing. -/
structure VMState where
  store : List Namespace
  globals_types : List (FQN × W_Type)
  globals_w : List (FQN × W_Object)
  modules_w : List String

/-- Lookup in an `FQN`-keyed table.  Python dicts key on
`__eq__`/`__hash__`, which for `FQN` compare the `fullname` strings, so
the lookup uses `FQN.pyEq`, not component equality. -/
def gGet {α : Type} (tab : List (FQN × α)) (f : FQN) : Option α :=
  (tab.find? (fun p => FQN.pyEq p.1 f)).map (·.2)

/-- Source `SPyVM.lookup_global` (`src/spy/vm/vm.py` lines 77-78). -/
def lookup_global (st : VMState) (f : FQN) : Option W_Object :=
  gGet st.globals_w f

/-- Source `SPyVM.lookup_global_type` (`src/spy/vm/vm.py` lines 74-75). -/
def lookup_global_type (st : VMState) (f : FQN) : Option W_Type :=
  gGet st.globals_types f

/-- Source `SPyVM.register_module` (`src/spy/vm/vm.py` lines 59-61): asserts the
module name is not yet registered, then records it. -/
def register_module (st : VMState) (name : String) : Except SpyError VMState :=
  if st.modules_w.contains name then
    .error (.assertionError "module already registered")
  else
    .ok { st with modules_w := st.modules_w ++ [name] }

/-- Source `SPyVM.add_global` (`src/spy/vm/vm.py` lines 63-72), with the asserts
in source order: the module of the name must be registered, the name must
be bound in neither table; a `None` declared type is replaced by the
value's dynamic type with no compatibility check, while a given declared
type must be compatible (exact dynamic-type identity) with the value;
only then are both tables extended. -/
def add_global (st : VMState) (name : FQN) (w_type : Option W_Type)
    (w_value : W_Object) : Except SpyError VMState :=
  if st.modules_w.contains name.modname then
    if (gGet st.globals_w name).isSome then
      .error (.assertionError "name already in globals_w")
    else if (gGet st.globals_types name).isSome then
      .error (.assertionError "name already in globals_types")
    else
      match w_type with
      | Option.none =>
        .ok { st with
              globals_types := st.globals_types ++ [(name, dynamic_type w_value)],
              globals_w := st.globals_w ++ [(name, w_value)] }
      | Option.some t =>
        if is_compatible_type w_value t then
          .ok { st with
                globals_types := st.globals_types ++ [(name, t)],
                globals_w := st.globals_w ++ [(name, w_value)] }
        else
          .error (.assertionError "incompatible type")
  else
    .error (.assertionError "modname not registered")

/-- Modelled from the spec: `vm.store_global`, called by
`ASTFrame.exec_stmt_Assign` but absent from the snapshot's `vm.py`;
per spec section 4.2, `store` overwrites only an already-declared
identifier's value and must not change its declared type. -/
def store_global (st : VMState) (f : FQN) (v : W_Object) :
    Except SpyError VMState :=
  if (gGet st.globals_w f).isSome then
    .ok { st with
          globals_w := st.globals_w.map
            (fun p => if FQN.pyEq p.1 f then (p.1, v) else p) }
  else
    .error (.spyNameError "store to undeclared global")

/-! ### The runtime call dispatcher: `SPyVM.call_function`

`src/spy/vm/vm.py` lines 147-158.  The snapshot's `spy/vm/function.py`
lacks the `W_UserFunction` and `W_BuiltinFunction` subclasses that
`vm.py` imports, and the stack-based bytecode executor that runs a
`W_CodeObject` is explicitly out of the spec's scope, so the frame
machinery is abstracted: an interpreted function carries its code
object and dispatch hands the code and the checked arguments to the
frame runner, while a builtin carries its native callable. -/

/-- Source `W_CodeObject` (`spy/vm/codeobject.py`, absent from the snapshot):
only its identity matters here. -/
structure W_CodeObject where
  name : String

/-- Modelled from the spec: the two callable variants sharing one call
contract — an interpreted function (`W_UserFunction`: function type plus
code object, executed by a new frame) and a native function
(`W_BuiltinFunction`: function type plus host callable). -/
inductive W_Function where
  | user (w_functype : W_FuncType) (w_code : W_CodeObject)
  | builtin (w_functype : W_FuncType)
            (impl : List W_Object → Except SpyError W_Object)

/-- The function type of either callable variant. -/
def W_Function.w_functype : W_Function → W_FuncType
  | .user ft _ => ft
  | .builtin ft _ => ft

/-- Source `SPyVM.call_function` (`src/spy/vm/vm.py` lines 147-158): assert the
argument count equals the parameter count, assert each argument's
dynamic type is compatible (exact identity) with its declared parameter
type, then start a new frame on the code object (interpreted function)
or invoke the native callable (builtin function).  `frameRun` is the
out-of-scope bytecode executor (`Frame(vm, w_code).run`). -/
def call_function
    (frameRun : W_CodeObject → List W_Object → Except SpyError W_Object)
    (w_func : W_Function) (args_w : List W_Object) :
    Except SpyError W_Object :=
  let params := w_func.w_functype.params
  if params.length = args_w.length then
    if (params.zip args_w).all
        (fun pa => is_compatible_type pa.2 pa.1.2) then
      match w_func with
      | .user _ w_code => frameRun w_code args_w
      | .builtin _ impl => impl args_w
    else
      .error (.assertionError "argument type not compatible")
  else
    .error (.assertionError "argument count mismatch")

/-! ### The AST evaluator: `ASTFrame` (`src/spy/vm/astframe.py`)

One activation per call.  The frame's locals live in one namespace of
the VM store, designated by `localsRef`; `w_func` is the function being
executed.  `locals_types` and `closure_types` are the per-activation
type tables of the `TypeChecker` (whose module `spy/vm/typechecker.py`
is absent from the snapshot): the declared static types of the locals
and, for each closure level, of the enclosing activation's locals, as
the spec's section 4.4 describes them.  The checker's purely static
validation (`t.check_stmt`/`t.check_expr`) raises only static type
errors and performs no state change; the dynamic transitions embedded
below are those of `astframe.py` itself. -/

/-- One `ASTFrame` activation's fixed context. -/
structure FrameCtx where
  w_func : W_ASTFunc
  localsRef : Nat
  locals_types : List (String × W_Type)
  closure_types : List (List (String × W_Type))

/-- Source `FrameVal` (`src/spy/vm/astframe.py` lines 28-40): a value paired
with its static type. -/
structure FrameVal where
  w_static_type : W_Type
  w_value : W_Object

/-- The result of executing a statement sequence, the spec's suggested
explicit version of the `Return` exception of `astframe.py`: either the
body fell through normally or a `Return` carrying a value is unwinding
to the call boundary. -/
inductive Outcome where
  | normal
  | returned (w_value : W_Object)

/-- Source `ASTFrame.store_local` (`src/spy/vm/astframe.py` lines 60-61):
write one name in the frame's namespace, through the namespace
reference (the namespace is shared with any closure built from this
frame). -/
def storeLocal (st : VMState) (r : Nat) (n : String) (v : W_Object) : VMState :=
  { st with store := st.store.set r (nsSet (st.store.getD r []) n v) }

/-- Source `ASTFrame.load_local` (`src/spy/vm/astframe.py` lines 63-67):
reading an absent local raises `SPyRuntimeError`. -/
def loadLocal (st : VMState) (r : Nat) (n : String) :
    Except SpyError W_Object :=
  match nsGet (st.store.getD r []) n with
  | Option.some w => .ok w
  | Option.none => .error (.spyRuntimeError "read from uninitialized local")

/-- Modelled from the spec: `TypeChecker.check_expr_Name` (section 4.4)
— a global's static type is the global table's declared type, a local's
is the activation's declared local type, a captured name's is the
enclosing activation's declared type, found through the symbol's
level. -/
def checkName (fr : FrameCtx) (st : VMState) (sym : Symbol) :
    Except SpyError W_Type :=
  match sym.fqn with
  | Option.some f =>
    match lookup_global_type st f with
    | Option.some t => .ok t
    | Option.none => .error (.spyTypeError "global without a declared type")
  | Option.none =>
    if sym.is_local then
      match (fr.locals_types.find? (fun p => p.1 == sym.name)).map (·.2) with
      | Option.some t => .ok t
      | Option.none => .error (.spyTypeError "name used before declaration")
    else
      match fr.closure_types.getD sym.level [] |>.find? (fun p => p.1 == sym.name) with
      | Option.some p => .ok p.2
      | Option.none => .error (.spyTypeError "captured name without a type")

/-- The fixed builtin static type of each literal kind —
`TypeChecker.check_expr_Constant`, total per the spec's section 4.4. -/
def litType : HostLit → W_Type
  | .int _ => .i32
  | .bool _ => .bool
  | .str _ => .str
  | .none => .void

/-- Integer comparison dispatch of `ASTFrame.eval_expr_CompareOp`
(`src/spy/vm/astframe.py` lines 255-272). -/
def cmpEval (op : CmpOp) (l r : Int) : Bool :=
  match op with
  | .eq => l = r
  | .ne => l ≠ r
  | .lt => l < r
  | .le => l ≤ r
  | .gt => l > r
  | .ge => l ≥ r

/-- Source `ASTFrame.eval_expr` (`src/spy/vm/astframe.py`), by expression kind:
`Constant` wraps the literal with its fixed static type (lines 191-198);
`Name` resolves through the symbol — global via the VM's global table,
local via the frame's namespace, captured via the closure reference at
the symbol's recorded level (lines 206-221); `CompareOp` evaluates both
operands, requires both static types to be `i32`, unwraps and compares,
wrapping the boolean result (lines 255-272; reaching the dispatch with
other static types is the `assert False` internal-consistency
failure). -/
def evalExpr (fr : FrameCtx) (st : VMState) : Expr → Except SpyError FrameVal
  | .constant lit => .ok ⟨litType lit, wrap lit⟩
  | .name id =>
    match symLookup fr.w_func.funcdef.symtable id with
    | Option.none => .error (.spyNameError "name not in the symbol table")
    | Option.some sym =>
      match checkName fr st sym with
      | .error e => .error e
      | .ok w_type =>
        match sym.fqn with
        | Option.some f =>
          match lookup_global st f with
          | Option.some w => .ok ⟨w_type, w⟩
          | Option.none =>
            .error (.assertionError "global not found. Bug in the ScopeAnalyzer?")
        | Option.none =>
          if sym.is_local then
            match loadLocal st fr.localsRef id with
            | .ok w => .ok ⟨w_type, w⟩
            | .error e => .error e
          else
            match fr.w_func.closure[sym.level]? with
            | Option.none => .error (.exception "closure level out of range")
            | Option.some r =>
              match nsGet (st.store.getD r []) sym.name with
              | Option.some w => .ok ⟨w_type, w⟩
              | Option.none => .error (.exception "captured name not in namespace")
  | .cmpop op l r =>
    match evalExpr fr st l with
    | .error e => .error e
    | .ok fv_l =>
      match evalExpr fr st r with
      | .error e => .error e
      | .ok fv_r =>
        if fv_l.w_static_type.isI32 && fv_r.w_static_type.isI32 then
          match fv_l.w_value, fv_r.w_value with
          | .i32 li, .i32 ri =>
            .ok ⟨.bool, wrap (.bool (cmpEval op li ri))⟩
          | _, _ => .error (.exception "static i32 with non-i32 value")
        else
          .error (.assertionError "Unsupported cmpop, bug in the typechecker")

/-- Source `ASTFrame.eval_expr_type` (`src/spy/vm/astframe.py` lines 116-123):
the expression must evaluate to a type-valued `FrameVal` whose static
type is the `type` type; anything else is a static error. -/
def evalExprType (fr : FrameCtx) (st : VMState) (e : Expr) :
    Except SpyError W_Type :=
  match evalExpr fr st e with
  | .error e => .error e
  | .ok fv =>
    match fv.w_value with
    | .type t =>
      match fv.w_static_type with
      | .type_ => .ok t
      | _ => .error (.assertionError "type value with wrong static type")
    | _ => .error (.spyTypeError "expected type")

/-- Evaluate the argument type expressions of a nested `FuncDef`, in
order (`ASTFrame.exec_stmt_FuncDef` lines 133-135). -/
def evalArgTypes (fr : FrameCtx) (st : VMState) :
    List (String × Expr) → Except SpyError (List (String × W_Type))
  | [] => .ok []
  | (n, e) :: rest =>
    match evalExprType fr st e with
    | .error err => .error err
    | .ok t =>
      match evalArgTypes fr st rest with
      | .error err => .error err
      | .ok ts => .ok ((n, t) :: ts)

/-- Sequencing with the `Return` unwind: a raised `Return` (the
`returned` outcome) or an error propagates past the rest of the
computation, exactly as the Python exception does; only a normal
completion continues. -/
def seqOutcome (o : Except SpyError (VMState × Outcome))
    (k : VMState → Except SpyError (VMState × Outcome)) :
    Except SpyError (VMState × Outcome) :=
  match o with
  | .ok (st, .normal) => k st
  | out => out

/-- Source `ASTFrame.exec_stmt` over a statement sequence (the `for stmt in
body` loops of `run`, `exec_stmt_If` and `exec_stmt_While`), fuelled:
the budget only bounds the number of statements stepped, so any
terminating Python execution is reproduced by every sufficiently large
budget.  Statement kinds (`src/spy/vm/astframe.py`):

* `Return` (lines 127-129): evaluate the expression and unwind with
  exactly that value — the `returned` outcome propagates through every
  enclosing statement list, conditional and loop without executing
  anything further.
* `FuncDef` (lines 131-148): evaluate the parameter and result type
  expressions, build the function type, extend the defining function's
  closure with a reference to this frame's namespace (not a copy), and
  store the new function under its name; the new `FQN` has the
  placeholder module `???` as in the source.
* `Assign` (lines 154-167): look up the target's symbol, evaluate the
  value, then store to the local namespace, or to the global table
  (asserting the symbol is red), or fail with the source's
  `closures not implemented yet` assert for captured targets.
* `StmtExpr` (lines 169-170): evaluate and discard.
* `If` (lines 172-179): evaluate the test, require a `W_bool`, run
  exactly one of the two bodies by identity with the true singleton.
* `While` (lines 181-187): evaluate the test anew on every iteration
  including the zeroth, break by identity with the false singleton,
  else run the body and loop. -/
def execStmts : Nat → FrameCtx → VMState → List Stmt →
    Except SpyError (VMState × Outcome)
  | _, _, st, [] => .ok (st, .normal)
  | 0, _, _, _ :: _ => .error .outOfFuel
  | fuel + 1, fr, st, stmt :: rest =>
    seqOutcome
      (match stmt with
        | .ret e =>
          match evalExpr fr st e with
          | .error err => .error err
          | .ok fv => .ok (st, .returned fv.w_value)
        | .funcDef fd =>
          match evalArgTypes fr st fd.args with
          | .error err => .error err
          | .ok params =>
            match evalExprType fr st fd.return_type with
            | .error err => .error err
            | .ok w_restype =>
              .ok (storeLocal st fr.localsRef fd.name
                     (.astfunc ⟨⟨"???", fd.name⟩,
                                fr.w_func.closure ++ [fr.localsRef],
                                W_FuncType.make fd.color params w_restype, fd⟩),
                   .normal)
        | .assign target value =>
          match symLookup fr.w_func.funcdef.symtable target with
          | Option.none => .error (.spyNameError "name not in the symbol table")
          | Option.some sym =>
            match evalExpr fr st value with
            | .error err => .error err
            | .ok fv =>
              if sym.is_local then
                .ok (storeLocal st fr.localsRef target fv.w_value, .normal)
              else
                match sym.fqn with
                | Option.some f =>
                  if sym.color = .red then
                    match store_global st f fv.w_value with
                    | .error err => .error err
                    | .ok st' => .ok (st', .normal)
                  else .error (.assertionError "assign to non-red global")
                | Option.none =>
                  .error (.assertionError "closures not implemented yet")
        | .exprStmt e =>
          match evalExpr fr st e with
          | .error err => .error err
          | .ok _ => .ok (st, .normal)
        | .ifS test then_body else_body =>
          match evalExpr fr st test with
          | .error err => .error err
          | .ok fv =>
            match fv.w_value with
            | .bool b =>
              if is_True (.bool b) then execStmts fuel fr st then_body
              else execStmts fuel fr st else_body
            | _ => .error (.assertionError "w_bool_value: not a W_bool")
        | .whileS test body =>
          match evalExpr fr st test with
          | .error err => .error err
          | .ok fv =>
            match fv.w_value with
            | .bool b =>
              if is_False (.bool b) then .ok (st, .normal)
              else
                seqOutcome (execStmts fuel fr st body)
                  (fun st' => execStmts fuel fr st' [Stmt.whileS test body])
            | _ => .error (.assertionError "w_bool_value: not a W_bool"))
      (fun st' => execStmts fuel fr st' rest)

/-- Execution of a single statement: the sequence of length one. -/
def execStmt1 (fuel : Nat) (fr : FrameCtx) (st : VMState) (s : Stmt) :
    Except SpyError (VMState × Outcome) :=
  execStmts fuel fr st [s]

/-- Source `ASTFrame.init_arguments` (`src/spy/vm/astframe.py` lines 87-102):
zip the parameters with the arguments strictly (a length mismatch
raises), assert each argument's dynamic type is assignable to the
declared parameter type — `can_assign_from_to` being absent from the
snapshot, assignability is the spec's exact dynamic-type identity — and
store each argument in its local. -/
def initArgs (st : VMState) (r : Nat) :
    List (String × W_Type) → List W_Object → Except SpyError VMState
  | [], [] => .ok st
  | (n, t) :: params, a :: args =>
    if tyEq (dynamic_type a) t then
      initArgs (storeLocal st r n a) r params args
    else .error (.assertionError "argument not assignable to parameter type")
  | _, _ => .error (.exception "zip strict: length mismatch")

/-- Source `ASTFrame.run` (`src/spy/vm/astframe.py` lines 69-85): allocate a
fresh namespace for the activation, bind the arguments, execute the
body; catching the `Return` unwind yields its value, while falling off
the end returns the interned `w_None` when the declared result type is
the void type and otherwise raises the `SPyTypeError` `reached the end
of the function without a return`. -/
def ASTFrame.run (fuel : Nat) (st : VMState) (w_func : W_ASTFunc)
    (closure_types : List (List (String × W_Type))) (args_w : List W_Object) :
    Except SpyError (VMState × W_Object) :=
  let r := st.store.length
  let st1 : VMState := { st with store := st.store ++ [[]] }
  let fr : FrameCtx := ⟨w_func, r, w_func.w_functype.params, closure_types⟩
  match initArgs st1 r w_func.w_functype.params args_w with
  | .error err => .error err
  | .ok st2 =>
    match execStmts fuel fr st2 w_func.funcdef.body with
    | .error err => .error err
    | .ok (st3, .returned v) => .ok (st3, v)
    | .ok (st3, .normal) =>
      if w_func.w_functype.w_restype.isVoid then .ok (st3, w_None)
      else
        .error (.spyTypeError "reached the end of the function without a `return`")

/-! ### Basic lemmas about the embedding -/

lemma seqOutcome_ok_normal (st : VMState)
    (k : VMState → Except SpyError (VMState × Outcome)) :
    seqOutcome (.ok (st, .normal)) k = k st := rfl

lemma seqOutcome_ok_returned (st : VMState) (v : W_Object)
    (k : VMState → Except SpyError (VMState × Outcome)) :
    seqOutcome (.ok (st, .returned v)) k = .ok (st, .returned v) := rfl

lemma seqOutcome_error (e : SpyError)
    (k : VMState → Except SpyError (VMState × Outcome)) :
    seqOutcome (.error e) k = .error e := rfl

lemma seqOutcome_pure (o : Except SpyError (VMState × Outcome)) :
    seqOutcome o (fun st => .ok (st, .normal)) = o := by
  cases o with
  | error e => rfl
  | ok p =>
    obtain ⟨st, out⟩ := p
    cases out <;> rfl

/-- Executing `s :: rest` first executes `s` alone and continues with
`rest` only on a normal completion: the `Return` unwind and errors stop
the block. -/
lemma execStmts_cons (fuel : Nat) (fr : FrameCtx) (st : VMState)
    (s : Stmt) (rest : List Stmt) :
    execStmts (fuel + 1) fr st (s :: rest) =
      seqOutcome (execStmt1 (fuel + 1) fr st s)
        (fun st' => execStmts fuel fr st' rest) := by
  simp only [execStmt1, execStmts]
  rw [seqOutcome_pure]

lemma nsGet_nsSet_self (ns : Namespace) (n : String) (v : W_Object) :
    nsGet (nsSet ns n v) n = some v := by
  induction ns with
  | nil => simp [nsGet, nsSet, List.find?]
  | cons p rest ih =>
    obtain ⟨k, w⟩ := p
    by_cases h : k = n
    · subst h
      simp [nsSet, nsGet, List.find?]
    · have hb : (k == n) = false := by simpa using h
      simp only [nsSet, hb, if_neg]
      simpa [nsGet, List.find?, hb] using ih

lemma getD_set_self : ∀ (l : List Namespace) (r : Nat) (x : Namespace),
    r < l.length → (l.set r x).getD r [] = x := by
  intro l
  induction l with
  | nil => intro r x h; simp at h
  | cons a t ih =>
    intro r x h
    cases r with
    | zero => simp [List.set]
    | succ r =>
      simp only [List.set, List.getD_cons_succ]
      exact ih r x (by simpa using h)

/-- A write through the namespace reference `r` is visible when reading
the store through the same reference. -/
lemma storeLocal_read (st : VMState) (r : Nat) (n : String) (v : W_Object)
    (h : r < st.store.length) :
    nsGet ((storeLocal st r n v).store.getD r []) n = some v := by
  simp only [storeLocal]
  rw [getD_set_self _ _ _ (by simpa using h)]
  exact nsGet_nsSet_self _ n v

lemma pyEq_refl (f : FQN) : FQN.pyEq f f = true := by
  simp [FQN.pyEq]

lemma gGet_append_singleton {α : Type} (l : List (FQN × α)) (n : FQN) (x : α)
    (h : gGet l n = Option.none) : gGet (l ++ [(n, x)]) n = some x := by
  induction l with
  | nil => simp [gGet, List.find?, pyEq_refl]
  | cons p rest ih =>
    cases hp : FQN.pyEq p.1 n with
    | true =>
      exfalso
      simp [gGet, List.find?, hp] at h
    | false =>
      simp only [gGet, List.cons_append, List.find?, hp] at h ⊢
      exact ih h

/-- Source `checkName` only consults the global type table and the frame's own
type tables, so a store write does not change it. -/
lemma checkName_storeLocal (fr : FrameCtx) (st : VMState) (r : Nat)
    (n : String) (v : W_Object) (sym : Symbol) :
    checkName fr (storeLocal st r n v) sym = checkName fr st sym := rfl

/-! ### Shared concrete fixtures for the witnesses -/

/-- A concrete function definition: no parameters, result type read from
the global `m::i32`, empty body, empty symbol table. -/
def sampleFD : FuncDef := .make "f" [] (.name "t") .red [] []

/-- A concrete interpreted function over `sampleFD`. -/
def sampleFunc : W_ASTFunc := ⟨⟨"m", "f"⟩, [], .make .red [] .void, sampleFD⟩

/-- A concrete frame for `sampleFunc`, locals in store slot 0. -/
def sampleFr : FrameCtx := ⟨sampleFunc, 0, [], []⟩

/-- A concrete VM state: one empty namespace, no globals, module `m`. -/
def sampleSt : VMState := ⟨[[]], [], [], ["m"]⟩

/-! ### C8 — wrap/unwrap round-trip -/

/-- C8: for each of the host types integer, boolean, text and absence,
wrapping a host literal and unwrapping it yields the original literal;
extracting an integer from a `Value` whose variant is not an integer
fails with the `Type mismatch` error, while extracting from an integer
`Value` succeeds with the carried integer. -/
theorem c8_wrap_unwrap_roundtrip :
    (∀ hv : HostLit, unwrap (wrap hv) = .ok hv) ∧
    (∀ n : Int, unwrap_i32 (W_Object.i32 n) = .ok n) ∧
    (∀ w : W_Object, (∀ n : Int, w ≠ .i32 n) →
      unwrap_i32 w = .error (.exception "Type mismatch")) := by
  refine ⟨?_, ?_, ?_⟩
  · intro hv
    cases hv with
    | int n => rfl
    | bool b => cases b <;> rfl
    | str s => rfl
    | none => rfl
  · intro n
    rfl
  · intro w h
    cases w with
    | i32 n => exact absurd rfl (h n)
    | bool b => rfl
    | str s => rfl
    | none => rfl
    | type t => rfl
    | astfunc f => rfl

/-- Witness for C8 at concrete inputs. -/
theorem c8_wrap_unwrap_roundtrip_witness :
    unwrap (wrap (.int 7)) = .ok (.int 7) ∧
    unwrap_i32 (W_Object.bool true) = .error (.exception "Type mismatch") :=
  ⟨c8_wrap_unwrap_roundtrip.1 (.int 7),
   c8_wrap_unwrap_roundtrip.2.2 (W_Object.bool true) (fun _ h => nomatch h)⟩

/-! ### C10 — interned boolean singletons -/

/-- C10: wrapping a host boolean yields the interned singleton for that
boolean, the identity-based truth tests agree with the host boolean, and
every wrapped boolean — including every comparison result produced by
the evaluator — is one of the two singletons. -/
theorem c10_bool_singletons :
    wrap (.bool true) = w_True ∧
    wrap (.bool false) = w_False ∧
    (∀ b : Bool, is_True (wrap (.bool b)) = b) ∧
    (∀ b : Bool, is_False (wrap (.bool b)) = !b) ∧
    (∀ b : Bool, wrap (.bool b) = w_True ∨ wrap (.bool b) = w_False) ∧
    (∀ (fr : FrameCtx) (st : VMState) (op : CmpOp) (l r : Expr)
       (fv : FrameVal), evalExpr fr st (.cmpop op l r) = .ok fv →
       fv.w_value = w_True ∨ fv.w_value = w_False) := by
  refine ⟨rfl, rfl, ?_, ?_, ?_, ?_⟩
  · intro b; cases b <;> rfl
  · intro b; cases b <;> rfl
  · intro b; cases b
    · exact Or.inr rfl
    · exact Or.inl rfl
  · intro fr st op l r fv h
    simp only [evalExpr] at h
    cases hl : evalExpr fr st l with
    | error e => simp only [hl] at h; exact nomatch h
    | ok fvl =>
      simp only [hl] at h
      cases hr : evalExpr fr st r with
      | error e => simp only [hr] at h; exact nomatch h
      | ok fvr =>
        simp only [hr] at h
        split at h
        · split at h
          · rename_i li ri _ _
            simp only [Except.ok.injEq] at h
            subst h
            cases hcc : cmpEval op li ri
            · exact Or.inr rfl
            · exact Or.inl rfl
          · exact nomatch h
        · exact nomatch h

/-- Witness for C10's comparison conjunct at a concrete comparison. -/
theorem c10_bool_singletons_witness :
    W_Object.bool true = w_True ∨ W_Object.bool true = w_False :=
  c10_bool_singletons.2.2.2.2.2 sampleFr sampleSt .lt
    (.constant (.int 1)) (.constant (.int 2)) ⟨.bool, .bool true⟩ rfl

/-! ### C5 — the runtime call dispatcher -/

/-- C5: `call_function` checks the argument count against the parameter
count and each argument's dynamic type against the declared parameter
type (exact identity) before dispatching; a wrong count or a
non-compatible argument fails, and when every check passes an
interpreted function is handed to the frame runner with the arguments
while a builtin function's native callable is invoked on them. -/
theorem c5_call_function_checks :
    (∀ (frameRun : W_CodeObject → List W_Object → Except SpyError W_Object)
       (w_func : W_Function) (args_w : List W_Object),
       w_func.w_functype.params.length ≠ args_w.length →
       call_function frameRun w_func args_w =
         .error (.assertionError "argument count mismatch")) ∧
    (∀ (frameRun : W_CodeObject → List W_Object → Except SpyError W_Object)
       (w_func : W_Function) (args_w : List W_Object),
       w_func.w_functype.params.length = args_w.length →
       (w_func.w_functype.params.zip args_w).all
         (fun pa => is_compatible_type pa.2 pa.1.2) = false →
       call_function frameRun w_func args_w =
         .error (.assertionError "argument type not compatible")) ∧
    (∀ (frameRun : W_CodeObject → List W_Object → Except SpyError W_Object)
       (ft : W_FuncType) (w_code : W_CodeObject) (args_w : List W_Object),
       ft.params.length = args_w.length →
       (ft.params.zip args_w).all
         (fun pa => is_compatible_type pa.2 pa.1.2) = true →
       call_function frameRun (.user ft w_code) args_w = frameRun w_code args_w) ∧
    (∀ (frameRun : W_CodeObject → List W_Object → Except SpyError W_Object)
       (ft : W_FuncType) (impl : List W_Object → Except SpyError W_Object)
       (args_w : List W_Object),
       ft.params.length = args_w.length →
       (ft.params.zip args_w).all
         (fun pa => is_compatible_type pa.2 pa.1.2) = true →
       call_function frameRun (.builtin ft impl) args_w = impl args_w) := by
  refine ⟨?_, ?_, ?_, ?_⟩
  · intro frameRun w_func args_w h
    simp only [call_function, if_neg h]
  · intro frameRun w_func args_w hlen hall
    simp only [call_function, if_pos hlen, hall]
    rfl
  · intro frameRun ft w_code args_w hlen hall
    simp only [call_function, W_Function.w_functype, if_pos hlen, hall]
    rfl
  · intro frameRun ft impl args_w hlen hall
    simp only [call_function, W_Function.w_functype, if_pos hlen, hall]
    rfl

/-- Witness for C5 at concrete calls: a call with too few arguments
fails, a call with an argument of the wrong dynamic type fails, and a
fully checked call to a builtin invokes its callable. -/
theorem c5_call_function_checks_witness :
    call_function (fun _ _ => .ok w_None)
        (.user (.make .red [("x", .i32)] .i32) ⟨"c"⟩) [] =
      .error (.assertionError "argument count mismatch") ∧
    call_function (fun _ _ => .ok w_None)
        (.user (.make .red [("x", .i32)] .i32) ⟨"c"⟩) [.bool true] =
      .error (.assertionError "argument type not compatible") ∧
    call_function (fun _ _ => .ok w_None)
        (.builtin (.make .red [("x", .i32)] .i32) (fun _ => .ok (.i32 9)))
        [.i32 5] =
      .ok (.i32 9) := by
  refine ⟨?_, ?_, ?_⟩
  · exact c5_call_function_checks.1 _ _ _ (by decide)
  · exact c5_call_function_checks.2.1 _ _ _ (by decide) (by decide)
  · exact c5_call_function_checks.2.2.2 _ _ _ _ (by decide) (by decide)

/-! ### C7 — declaring a global binding -/

/-- C7: `add_global` fails when the module of the identifier is not
registered, when the identifier is already bound (in either table), or
when a given declared type is not compatible with the value's dynamic
type; the tables are extended only in the success case, so a failing
declaration leaves them unchanged. -/
theorem c7_declare_global_failures :
    (∀ (st : VMState) (n : FQN) (t : Option W_Type) (v : W_Object),
       st.modules_w.contains n.modname = false →
       add_global st n t v = .error (.assertionError "modname not registered")) ∧
    (∀ (st : VMState) (n : FQN) (t : Option W_Type) (v : W_Object),
       st.modules_w.contains n.modname = true →
       (gGet st.globals_w n).isSome = true →
       add_global st n t v =
         .error (.assertionError "name already in globals_w")) ∧
    (∀ (st : VMState) (n : FQN) (t : Option W_Type) (v : W_Object),
       st.modules_w.contains n.modname = true →
       gGet st.globals_w n = Option.none →
       (gGet st.globals_types n).isSome = true →
       add_global st n t v =
         .error (.assertionError "name already in globals_types")) ∧
    (∀ (st : VMState) (n : FQN) (ty : W_Type) (v : W_Object),
       st.modules_w.contains n.modname = true →
       gGet st.globals_w n = Option.none →
       gGet st.globals_types n = Option.none →
       is_compatible_type v ty = false →
       add_global st n (some ty) v =
         .error (.assertionError "incompatible type")) ∧
    (∀ (st : VMState) (n : FQN) (ty : W_Type) (v : W_Object),
       st.modules_w.contains n.modname = true →
       gGet st.globals_w n = Option.none →
       gGet st.globals_types n = Option.none →
       is_compatible_type v ty = true →
       add_global st n (some ty) v =
         .ok { st with globals_types := st.globals_types ++ [(n, ty)],
                       globals_w := st.globals_w ++ [(n, v)] }) := by
  refine ⟨?_, ?_, ?_, ?_, ?_⟩
  · intro st n t v h
    simp only [add_global, h]
    rfl
  · intro st n t v hm hw
    simp only [add_global, hm, if_pos rfl, hw]
    rfl
  · intro st n t v hm hw ht
    simp only [add_global, hm, if_pos rfl, hw, ht]
    rfl
  · intro st n ty v hm hw ht hc
    simp only [add_global, hm, if_pos rfl, hw, ht, hc]
    rfl
  · intro st n ty v hm hw ht hc
    simp only [add_global, hm, if_pos rfl, hw, ht, hc]
    rfl

/-- Witness for C7 at concrete declarations against `sampleSt`: an
unregistered module fails, a duplicate of an existing binding fails, an
incompatible declared type fails, and a compatible declaration
succeeds. -/
theorem c7_declare_global_failures_witness :
    add_global sampleSt ⟨"other", "g"⟩ Option.none (W_Object.i32 1) =
      .error (.assertionError "modname not registered") ∧
    add_global ⟨[[]], [(⟨"m", "g"⟩, .i32)], [(⟨"m", "g"⟩, .i32 1)], ["m"]⟩
        ⟨"m", "g"⟩ Option.none (W_Object.i32 2) =
      .error (.assertionError "name already in globals_w") ∧
    add_global sampleSt ⟨"m", "g"⟩ (some W_Type.bool) (W_Object.i32 1) =
      .error (.assertionError "incompatible type") := by
  refine ⟨?_, ?_, ?_⟩
  · exact c7_declare_global_failures.1 _ _ _ _ (by decide)
  · exact c7_declare_global_failures.2.1 _ _ _ _ (by decide) (by decide)
  · exact c7_declare_global_failures.2.2.2.1 _ _ _ _ (by decide) rfl rfl
      (by decide)

/-! ### C9 — declaring a global with no declared type -/

/-- C9: with an absent declared type, `add_global` performs no
compatibility check at all — it succeeds for every value (module
registered, name unbound) — records the value's dynamic type as the
declared type, and a subsequent type lookup returns that dynamic
type. -/
theorem c9_declare_global_no_type (st : VMState) (n : FQN) (v : W_Object)
    (hm : st.modules_w.contains n.modname = true)
    (hw : gGet st.globals_w n = Option.none)
    (ht : gGet st.globals_types n = Option.none) :
    add_global st n Option.none v =
      .ok { st with globals_types := st.globals_types ++ [(n, dynamic_type v)],
                    globals_w := st.globals_w ++ [(n, v)] } ∧
    ∀ st', add_global st n Option.none v = .ok st' →
      lookup_global_type st' n = some (dynamic_type v) := by
  have heq : add_global st n Option.none v =
      .ok { st with globals_types := st.globals_types ++ [(n, dynamic_type v)],
                    globals_w := st.globals_w ++ [(n, v)] } := by
    simp only [add_global, hm, if_pos rfl, hw, ht]
    rfl
  refine ⟨heq, ?_⟩
  intro st' h
  rw [heq] at h
  simp only [Except.ok.injEq] at h
  subst h
  exact gGet_append_singleton _ n _ ht

/-- Witness for C9: a type-less declaration of an integer in `sampleSt`
succeeds and the recorded declared type is `i32`. -/
theorem c9_declare_global_no_type_witness :
    add_global sampleSt ⟨"m", "g"⟩ Option.none (W_Object.i32 5) =
      .ok ⟨[[]], [(⟨"m", "g"⟩, .i32)], [(⟨"m", "g"⟩, .i32 5)], ["m"]⟩ ∧
    lookup_global_type ⟨[[]], [(⟨"m", "g"⟩, .i32)], [(⟨"m", "g"⟩, .i32 5)], ["m"]⟩
      ⟨"m", "g"⟩ = some W_Type.i32 := by
  have h := c9_declare_global_no_type sampleSt ⟨"m", "g"⟩ (W_Object.i32 5)
    (by decide) rfl rfl
  exact ⟨h.1, h.2 _ h.1⟩

/-! ### Control-flow lemmas for the evaluator -/

/-- A `Return` statement evaluates its expression and unwinds with
exactly that value: the statements after it in the block are never
executed and the state is untouched by them. -/
lemma execStmts_ret_head (fuel : Nat) (fr : FrameCtx) (st : VMState)
    (e : Expr) (fv : FrameVal) (post : List Stmt)
    (h : evalExpr fr st e = .ok fv) :
    execStmts (fuel + 1) fr st (Stmt.ret e :: post) =
      .ok (st, .returned fv.w_value) := by
  simp only [execStmts, h]
  rfl

/-- Once a statement unwinds with `returned`, the rest of its block is
skipped: the block's result is the unwinding result. -/
lemma execStmts_returned_head (fuel : Nat) (fr : FrameCtx) (st st' : VMState)
    (s : Stmt) (v : W_Object) (post : List Stmt)
    (hs : execStmt1 (fuel + 1) fr st s = .ok (st', .returned v)) :
    execStmts (fuel + 1) fr st (s :: post) = .ok (st', .returned v) := by
  rw [execStmts_cons, hs]
  rfl

/-- A `Return` inside the taken branch of a conditional unwinds the
conditional: the `If` statement's own result is the unwinding result. -/
lemma execStmt1_if_returned (fuel : Nat) (fr : FrameCtx) (st st' : VMState)
    (test : Expr) (then_body else_body : List Stmt) (fv : FrameVal)
    (v : W_Object)
    (htest : evalExpr fr st test = .ok fv)
    (hval : fv.w_value = .bool true)
    (hthen : execStmts fuel fr st then_body = .ok (st', .returned v)) :
    execStmt1 (fuel + 1) fr st (.ifS test then_body else_body) =
      .ok (st', .returned v) := by
  simp only [execStmt1, execStmts, htest, hval, is_True, if_true, hthen]
  rfl

/-- A `Return` inside a loop body unwinds the loop: no further test
evaluation or iteration happens and the `While` statement's own result
is the unwinding result. -/
lemma execStmt1_while_returned (fuel : Nat) (fr : FrameCtx) (st st' : VMState)
    (test : Expr) (body : List Stmt) (fv : FrameVal) (v : W_Object)
    (htest : evalExpr fr st test = .ok fv)
    (hval : fv.w_value = .bool true)
    (hbody : execStmts fuel fr st body = .ok (st', .returned v)) :
    execStmt1 (fuel + 1) fr st (.whileS test body) =
      .ok (st', .returned v) := by
  simp only [execStmt1, execStmts, htest, hval, is_False, hbody]
  rfl

/-- Source `ASTFrame.run` catches the `Return` unwind of the body and returns
exactly the carried value. -/
lemma run_of_returned (fuel : Nat) (st : VMState) (w_func : W_ASTFunc)
    (ct : List (List (String × W_Type))) (args_w : List W_Object)
    (st₂ st₃ : VMState) (v : W_Object)
    (hinit : initArgs { st with store := st.store ++ [[]] } st.store.length
               w_func.w_functype.params args_w = .ok st₂)
    (hbody : execStmts fuel ⟨w_func, st.store.length,
               w_func.w_functype.params, ct⟩ st₂ w_func.funcdef.body =
             .ok (st₃, .returned v)) :
    ASTFrame.run fuel st w_func ct args_w = .ok (st₃, v) := by
  simp only [ASTFrame.run, hinit, hbody]

/-- Source `ASTFrame.run` on a body that falls off the end: the interned
absence value for a void result type, the `reached the end of the
function` error otherwise. -/
lemma run_of_normal (fuel : Nat) (st : VMState) (w_func : W_ASTFunc)
    (ct : List (List (String × W_Type))) (args_w : List W_Object)
    (st₂ st₃ : VMState)
    (hinit : initArgs { st with store := st.store ++ [[]] } st.store.length
               w_func.w_functype.params args_w = .ok st₂)
    (hbody : execStmts fuel ⟨w_func, st.store.length,
               w_func.w_functype.params, ct⟩ st₂ w_func.funcdef.body =
             .ok (st₃, .normal)) :
    ASTFrame.run fuel st w_func ct args_w =
      (if w_func.w_functype.w_restype.isVoid then .ok (st₃, w_None)
       else .error
         (.spyTypeError "reached the end of the function without a `return`")) := by
  simp only [ASTFrame.run, hinit, hbody]

/-- A `While` whose test evaluates to the false singleton completes
normally at once: the body runs zero times and the state is
unchanged. -/
lemma execStmt1_while_false (fuel : Nat) (fr : FrameCtx) (st : VMState)
    (test : Expr) (body : List Stmt) (fv : FrameVal)
    (htest : evalExpr fr st test = .ok fv)
    (hval : fv.w_value = .bool false) :
    execStmt1 (fuel + 1) fr st (.whileS test body) = .ok (st, .normal) := by
  simp only [execStmt1, execStmts, htest, hval, is_False, if_true]
  rfl

/-- A `While` whose test evaluates to the true singleton runs the body
once and, only on a normal completion of the body, loops. -/
lemma execStmt1_while_true (fuel : Nat) (fr : FrameCtx) (st : VMState)
    (test : Expr) (body : List Stmt) (fv : FrameVal)
    (htest : evalExpr fr st test = .ok fv)
    (hval : fv.w_value = .bool true) :
    execStmt1 (fuel + 1) fr st (.whileS test body) =
      seqOutcome (execStmts fuel fr st body)
        (fun st' => execStmts fuel fr st' [Stmt.whileS test body]) := by
  simp only [execStmt1, execStmts, htest, hval, is_False]
  rw [seqOutcome_pure]
  simp

/-! ### C1 — Return is a non-local exit to the call boundary -/

/-- C1: executing `Return` evaluates its expression and unwinds with
exactly that value — the following statements of the block never
execute (the block's result does not depend on them), any statement
that unwinds skips the rest of its block, enclosing conditionals and
loops propagate the unwind without running their remaining bodies or
iterating further, and `ASTFrame.run` returns the carried value at the
call boundary. -/
theorem c1_return_non_local_exit :
    (∀ (fuel : Nat) (fr : FrameCtx) (st : VMState) (e : Expr) (fv : FrameVal)
       (post : List Stmt), evalExpr fr st e = .ok fv →
       execStmts (fuel + 1) fr st (Stmt.ret e :: post) =
         .ok (st, .returned fv.w_value)) ∧
    (∀ (fuel : Nat) (fr : FrameCtx) (st st' : VMState) (s : Stmt)
       (v : W_Object) (post : List Stmt),
       execStmt1 (fuel + 1) fr st s = .ok (st', .returned v) →
       execStmts (fuel + 1) fr st (s :: post) = .ok (st', .returned v)) ∧
    (∀ (fuel : Nat) (fr : FrameCtx) (st st' : VMState) (test : Expr)
       (then_body else_body : List Stmt) (fv : FrameVal) (v : W_Object),
       evalExpr fr st test = .ok fv → fv.w_value = .bool true →
       execStmts fuel fr st then_body = .ok (st', .returned v) →
       execStmt1 (fuel + 1) fr st (.ifS test then_body else_body) =
         .ok (st', .returned v)) ∧
    (∀ (fuel : Nat) (fr : FrameCtx) (st st' : VMState) (test : Expr)
       (body : List Stmt) (fv : FrameVal) (v : W_Object),
       evalExpr fr st test = .ok fv → fv.w_value = .bool true →
       execStmts fuel fr st body = .ok (st', .returned v) →
       execStmt1 (fuel + 1) fr st (.whileS test body) =
         .ok (st', .returned v)) ∧
    (∀ (fuel : Nat) (st : VMState) (w_func : W_ASTFunc)
       (ct : List (List (String × W_Type))) (args_w : List W_Object)
       (st₂ st₃ : VMState) (v : W_Object),
       initArgs { st with store := st.store ++ [[]] } st.store.length
         w_func.w_functype.params args_w = .ok st₂ →
       execStmts fuel ⟨w_func, st.store.length, w_func.w_functype.params, ct⟩
         st₂ w_func.funcdef.body = .ok (st₃, .returned v) →
       ASTFrame.run fuel st w_func ct args_w = .ok (st₃, v)) :=
  ⟨fun fuel fr st e fv post h => execStmts_ret_head fuel fr st e fv post h,
   fun fuel fr st st' s v post hs =>
     execStmts_returned_head fuel fr st st' s v post hs,
   fun fuel fr st st' test tb eb fv v h1 h2 h3 =>
     execStmt1_if_returned fuel fr st st' test tb eb fv v h1 h2 h3,
   fun fuel fr st st' test body fv v h1 h2 h3 =>
     execStmt1_while_returned fuel fr st st' test body fv v h1 h2 h3,
   fun fuel st w_func ct args_w st₂ st₃ v h1 h2 =>
     run_of_returned fuel st w_func ct args_w st₂ st₃ v h1 h2⟩

/-- A concrete function whose body is `return 7` followed by a further
statement, with declared result type `i32`. -/
def retFD : FuncDef :=
  .make "f" [] (.constant (.int 0)) .red
    [.ret (.constant (.int 7)), .exprStmt (.constant (.int 1))] []

/-- The function value over `retFD`. -/
def retFunc : W_ASTFunc := ⟨⟨"m", "f"⟩, [], .make .red [] .i32, retFD⟩

/-- Witness for C1: running the concrete `return 7; 1` body yields
exactly `7` at the call boundary, and a `Return` inside a loop body
unwinds the loop. -/
theorem c1_return_non_local_exit_witness :
    ASTFrame.run 5 ⟨[], [], [], []⟩ retFunc [] [] =
      .ok (⟨[[]], [], [], []⟩, W_Object.i32 7) ∧
    execStmt1 3 sampleFr sampleSt
        (.whileS (.constant (.bool true)) [.ret (.constant (.int 7))]) =
      .ok (sampleSt, .returned (.i32 7)) := by
  constructor
  · exact c1_return_non_local_exit.2.2.2.2 5 ⟨[], [], [], []⟩ retFunc [] []
      ⟨[[]], [], [], []⟩ ⟨[[]], [], [], []⟩ (.i32 7) rfl
      (c1_return_non_local_exit.1 4 _ _ _ ⟨.i32, .i32 7⟩ _ rfl)
  · exact c1_return_non_local_exit.2.2.2.1 2 sampleFr sampleSt sampleSt
      (.constant (.bool true)) [.ret (.constant (.int 7))]
      ⟨.bool, .bool true⟩ (.i32 7) rfl rfl rfl

/-! ### C2 — falling off the end of a function body -/

/-- C2: when a function body completes without executing a `Return`,
`ASTFrame.run` returns the interned absence value if the declared
result type is the void type, and otherwise fails with the
`reached the end of the function without a return` type error. -/
theorem c2_fall_off_end (fuel : Nat) (st : VMState) (w_func : W_ASTFunc)
    (ct : List (List (String × W_Type))) (args_w : List W_Object)
    (st₂ st₃ : VMState)
    (hinit : initArgs { st with store := st.store ++ [[]] } st.store.length
               w_func.w_functype.params args_w = .ok st₂)
    (hbody : execStmts fuel ⟨w_func, st.store.length,
               w_func.w_functype.params, ct⟩ st₂ w_func.funcdef.body =
             .ok (st₃, .normal)) :
    ASTFrame.run fuel st w_func ct args_w =
      (if w_func.w_functype.w_restype.isVoid then .ok (st₃, w_None)
       else .error
         (.spyTypeError "reached the end of the function without a `return`")) :=
  run_of_normal fuel st w_func ct args_w st₂ st₃ hinit hbody

/-- A concrete function with an empty body and declared result type
`i32` — no path returns. -/
def noRetFunc : W_ASTFunc :=
  ⟨⟨"m", "g"⟩, [], .make .red [] .i32, .make "g" [] (.constant (.int 0)) .red [] []⟩

/-- A concrete function with an empty body and declared result type
`void`. -/
def voidFunc : W_ASTFunc :=
  ⟨⟨"m", "h"⟩, [], .make .red [] .void, .make "h" [] (.constant (.int 0)) .red [] []⟩

/-- Witness for C2: the non-void empty-bodied function fails with the
`reached the end` error and the void one returns the absence value. -/
theorem c2_fall_off_end_witness :
    ASTFrame.run 5 ⟨[], [], [], []⟩ noRetFunc [] [] =
      .error (.spyTypeError "reached the end of the function without a `return`") ∧
    ASTFrame.run 5 ⟨[], [], [], []⟩ voidFunc [] [] =
      .ok (⟨[[]], [], [], []⟩, w_None) := by
  constructor
  · exact c2_fall_off_end 5 ⟨[], [], [], []⟩ noRetFunc [] []
      ⟨[[]], [], [], []⟩ ⟨[[]], [], [], []⟩ rfl rfl
  · exact c2_fall_off_end 5 ⟨[], [], [], []⟩ voidFunc [] []
      ⟨[[]], [], [], []⟩ ⟨[[]], [], [], []⟩ rfl rfl

/-! ### C6 — `While` evaluates its test once per iteration -/

/-- C6: the loop evaluates its test before any iteration; a false test
completes the statement at once with the state unchanged — the body
runs zero times — and a true test runs the body exactly once before the
loop statement is reached again. -/
theorem c6_while_zeroth_test :
    (∀ (fuel : Nat) (fr : FrameCtx) (st : VMState) (test : Expr)
       (body : List Stmt) (fv : FrameVal),
       evalExpr fr st test = .ok fv → fv.w_value = .bool false →
       execStmt1 (fuel + 1) fr st (.whileS test body) = .ok (st, .normal)) ∧
    (∀ (fuel : Nat) (fr : FrameCtx) (st : VMState) (test : Expr)
       (body : List Stmt) (fv : FrameVal),
       evalExpr fr st test = .ok fv → fv.w_value = .bool true →
       execStmt1 (fuel + 1) fr st (.whileS test body) =
         seqOutcome (execStmts fuel fr st body)
           (fun st' => execStmts fuel fr st' [Stmt.whileS test body])) :=
  ⟨fun fuel fr st test body fv h1 h2 =>
     execStmt1_while_false fuel fr st test body fv h1 h2,
   fun fuel fr st test body fv h1 h2 =>
     execStmt1_while_true fuel fr st test body fv h1 h2⟩

/-- Witness for C6: a concrete loop with constant-false test completes
normally with the state unchanged, and one with a constant-true test
runs its returning body exactly once. -/
theorem c6_while_zeroth_test_witness :
    execStmt1 3 sampleFr sampleSt
        (.whileS (.constant (.bool false)) [.ret (.constant (.int 1))]) =
      .ok (sampleSt, .normal) ∧
    execStmt1 3 sampleFr sampleSt
        (.whileS (.constant (.bool true)) [.ret (.constant (.int 1))]) =
      .ok (sampleSt, .returned (.i32 1)) := by
  constructor
  · exact c6_while_zeroth_test.1 2 sampleFr sampleSt (.constant (.bool false))
      [.ret (.constant (.int 1))] ⟨.bool, .bool false⟩ rfl rfl
  · exact (c6_while_zeroth_test.2 2 sampleFr sampleSt (.constant (.bool true))
      [.ret (.constant (.int 1))] ⟨.bool, .bool true⟩ rfl rfl).trans rfl

/-! ### C3 — closures capture the defining namespace by reference -/

/-- Executing a nested `FuncDef`: the new function value's closure is
the defining function's closure extended with the reference to the
defining frame's namespace — the index, not a copy of its contents —
and the function is stored under its name in that namespace. -/
lemma execStmt1_funcdef (fuel : Nat) (fr : FrameCtx) (st : VMState)
    (fd : FuncDef) (params : List (String × W_Type)) (rt : W_Type)
    (hargs : evalArgTypes fr st fd.args = .ok params)
    (hret : evalExprType fr st fd.return_type = .ok rt) :
    execStmt1 (fuel + 1) fr st (.funcDef fd) =
      .ok (storeLocal st fr.localsRef fd.name
             (.astfunc ⟨⟨"???", fd.name⟩, fr.w_func.closure ++ [fr.localsRef],
                        .make fd.color params rt, fd⟩), .normal) := by
  simp only [execStmt1, execStmts, hargs, hret]
  rfl

/-- Reading a captured name goes through the closure at the symbol's
recorded level: the value is whatever the referenced namespace currently
holds under that name. -/
lemma evalExpr_captured_read (fr : FrameCtx) (st : VMState) (id : String)
    (sym : Symbol) (ty : W_Type) (r : Nat) (v : W_Object)
    (hsym : symLookup fr.w_func.funcdef.symtable id = some sym)
    (hty : checkName fr st sym = .ok ty)
    (hfqn : sym.fqn = Option.none)
    (hloc : sym.is_local = false)
    (hlev : fr.w_func.closure[sym.level]? = some r)
    (hval : nsGet (st.store.getD r []) sym.name = some v) :
    evalExpr fr st (.name id) = .ok ⟨ty, v⟩ := by
  simp only [evalExpr, hsym, hty, hfqn, hloc, hlev, hval]
  simp

/-- Reading a captured name after the defining frame mutates that local
observes the mutated value, whatever the namespace held before. -/
lemma evalExpr_captured_after_store (fr : FrameCtx) (st : VMState)
    (id x : String) (sym : Symbol) (ty : W_Type) (r : Nat) (v₂ : W_Object)
    (hsym : symLookup fr.w_func.funcdef.symtable id = some sym)
    (hty : checkName fr st sym = .ok ty)
    (hfqn : sym.fqn = Option.none)
    (hloc : sym.is_local = false)
    (hlev : fr.w_func.closure[sym.level]? = some r)
    (hr : r < st.store.length)
    (hn : sym.name = x) :
    evalExpr fr (storeLocal st r x v₂) (.name id) = .ok ⟨ty, v₂⟩ := by
  refine evalExpr_captured_read fr _ id sym ty r v₂ hsym ?_ hfqn hloc hlev ?_
  · rw [checkName_storeLocal]
    exact hty
  · rw [hn]
    exact storeLocal_read st r x v₂ hr

/-- C3: a nested function definition builds its closure as the defining
frame's closure extended by one level holding the reference to the
defining frame's current namespace (not a copy); a captured-name read
accesses the closure at the symbol's recorded level and yields the
referenced namespace's current binding; hence a read made after the
defining frame mutates the captured local observes the mutated value
for every new value, not the value at closure-creation time. -/
theorem c3_closure_by_reference :
    (∀ (fuel : Nat) (fr : FrameCtx) (st : VMState) (fd : FuncDef)
       (params : List (String × W_Type)) (rt : W_Type),
       evalArgTypes fr st fd.args = .ok params →
       evalExprType fr st fd.return_type = .ok rt →
       execStmt1 (fuel + 1) fr st (.funcDef fd) =
         .ok (storeLocal st fr.localsRef fd.name
                (.astfunc ⟨⟨"???", fd.name⟩,
                           fr.w_func.closure ++ [fr.localsRef],
                           .make fd.color params rt, fd⟩), .normal)) ∧
    (∀ (fr : FrameCtx) (st : VMState) (id : String) (sym : Symbol)
       (ty : W_Type) (r : Nat) (v : W_Object),
       symLookup fr.w_func.funcdef.symtable id = some sym →
       checkName fr st sym = .ok ty →
       sym.fqn = Option.none → sym.is_local = false →
       fr.w_func.closure[sym.level]? = some r →
       nsGet (st.store.getD r []) sym.name = some v →
       evalExpr fr st (.name id) = .ok ⟨ty, v⟩) ∧
    (∀ (fr : FrameCtx) (st : VMState) (id x : String) (sym : Symbol)
       (ty : W_Type) (r : Nat) (v₂ : W_Object),
       symLookup fr.w_func.funcdef.symtable id = some sym →
       checkName fr st sym = .ok ty →
       sym.fqn = Option.none → sym.is_local = false →
       fr.w_func.closure[sym.level]? = some r →
       r < st.store.length → sym.name = x →
       evalExpr fr (storeLocal st r x v₂) (.name id) = .ok ⟨ty, v₂⟩) :=
  ⟨fun fuel fr st fd params rt h1 h2 =>
     execStmt1_funcdef fuel fr st fd params rt h1 h2,
   fun fr st id sym ty r v h1 h2 h3 h4 h5 h6 =>
     evalExpr_captured_read fr st id sym ty r v h1 h2 h3 h4 h5 h6,
   fun fr st id x sym ty r v₂ h1 h2 h3 h4 h5 h6 h7 =>
     evalExpr_captured_after_store fr st id x sym ty r v₂ h1 h2 h3 h4 h5 h6 h7⟩

/-- Concrete state for the closure witness: one namespace holding
`x = 1`, the builtin `i32` type object as global `bi::i32`. -/
def cloSt : VMState :=
  ⟨[[("x", .i32 1)]], [(⟨"bi", "i32"⟩, .type_)],
   [(⟨"bi", "i32"⟩, .type .i32)], ["m"]⟩

/-- The nested function's definition: captures `x` at level 0. -/
def innerFD : FuncDef :=
  .make "inner" [] (.name "t") .red [.ret (.name "x")]
    [("x", ⟨"x", Option.none, false, 0, .red⟩),
     ("t", ⟨"t", some ⟨"bi", "i32"⟩, false, 0, .blue⟩)]

/-- The defining (outer) function. -/
def outerFD : FuncDef :=
  .make "outer" [] (.name "t") .red [.funcDef innerFD]
    [("t", ⟨"t", some ⟨"bi", "i32"⟩, false, 0, .blue⟩),
     ("x", ⟨"x", Option.none, true, 0, .red⟩)]

/-- The outer function value: top level, empty closure. -/
def outerFunc : W_ASTFunc := ⟨⟨"m", "outer"⟩, [], .make .red [] .i32, outerFD⟩

/-- The outer frame: locals are store slot 0, local `x` declared `i32`. -/
def outerFr : FrameCtx := ⟨outerFunc, 0, [("x", .i32)], []⟩

/-- The nested function value that executing `funcDef innerFD` in
`outerFr` creates: its closure is `[0]`, the reference to the outer
frame's namespace. -/
def innerFunc : W_ASTFunc :=
  ⟨⟨"???", "inner"⟩, [0], .make .red [] .i32, innerFD⟩

/-- A frame executing `innerFunc`, whose checker knows the captured
`x : i32` of the enclosing activation. -/
def innerFr : FrameCtx := ⟨innerFunc, 1, [], [[("x", .i32)]]⟩

/-- Witness for C3: defining `inner` inside the outer frame stores a
function whose closure is the outer namespace reference `[0]`; before
any mutation the captured read sees `x = 1`; after the outer frame
stores `x = 2` through the same reference, the captured read sees `2`,
not the value `1` it had when the closure was created. -/
theorem c3_closure_by_reference_witness :
    execStmt1 2 outerFr cloSt (.funcDef innerFD) =
      .ok (storeLocal cloSt 0 "inner" (.astfunc innerFunc), .normal) ∧
    evalExpr innerFr cloSt (.name "x") = .ok ⟨.i32, .i32 1⟩ ∧
    evalExpr innerFr (storeLocal cloSt 0 "x" (.i32 2)) (.name "x") =
      .ok ⟨.i32, .i32 2⟩ := by
  refine ⟨?_, ?_, ?_⟩
  · exact c3_closure_by_reference.1 1 outerFr cloSt innerFD [] .i32 rfl rfl
  · exact c3_closure_by_reference.2.1 innerFr cloSt "x"
      ⟨"x", Option.none, false, 0, .red⟩ .i32 0 (.i32 1) rfl rfl rfl rfl rfl rfl
  · exact c3_closure_by_reference.2.2 innerFr cloSt "x" "x"
      ⟨"x", Option.none, false, 0, .red⟩ .i32 0 (.i32 2) rfl rfl rfl rfl rfl
      (by decide) rfl

/-! ### C4 — identifier equality, hashing and the textual form -/

lemma splitSep_of_noSep : ∀ (l : List Char), countSep l = 0 → splitSep l = [l] := by
  intro l
  induction l with
  | nil => intro _; rfl
  | cons c t ih =>
    intro h
    cases t with
    | nil => rfl
    | cons c₂ r =>
      simp only [countSep] at h
      split at h
      · omega
      · rename_i hcond
        simp only [splitSep, if_neg hcond]
        rw [ih h]

lemma countSep_join (a : List Char) (ha : countSep a = 0) :
    ∀ (m : List Char), countSep m = 0 → lastIsColon m = false →
      countSep (m ++ ':' :: ':' :: a) = 1 := by
  intro m
  induction m with
  | nil =>
    intro _ _
    simp only [List.nil_append, countSep]
    rw [if_pos (by constructor <;> trivial), ha]
  | cons c t ih =>
    intro hm hl
    cases t with
    | nil =>
      have hc : c ≠ ':' := by simpa [lastIsColon] using hl
      simp only [List.cons_append, List.nil_append, countSep]
      rw [if_neg (fun hand => hc hand.1), if_pos (by constructor <;> trivial), ha]
    | cons c₂ r =>
      simp only [countSep] at hm
      split at hm
      · omega
      · rename_i hcond
        simp only [lastIsColon] at hl
        have h2 := ih hm hl
        simp only [List.cons_append] at h2 ⊢
        simp only [countSep]
        rw [if_neg hcond]
        exact h2

lemma splitSep_join (a : List Char) (ha : countSep a = 0) :
    ∀ (m : List Char), countSep m = 0 → lastIsColon m = false →
      splitSep (m ++ ':' :: ':' :: a) = [m, a] := by
  intro m
  induction m with
  | nil =>
    intro _ _
    simp only [List.nil_append, splitSep]
    rw [if_pos (by constructor <;> trivial), splitSep_of_noSep a ha]
  | cons c t ih =>
    intro hm hl
    cases t with
    | nil =>
      have hc : c ≠ ':' := by simpa [lastIsColon] using hl
      simp only [List.cons_append, List.nil_append, splitSep]
      rw [if_neg (fun hand => hc hand.1), if_pos (by constructor <;> trivial),
        splitSep_of_noSep a ha]
    | cons c₂ r =>
      simp only [countSep] at hm
      split at hm
      · omega
      · rename_i hcond
        simp only [lastIsColon] at hl
        have h2 := ih hm hl
        simp only [List.cons_append] at h2 ⊢
        simp only [splitSep]
        rw [if_neg hcond, h2]

lemma fullname_toList (m a : String) :
    (FQN.fullname ⟨m, a⟩).toList = m.toList ++ ':' :: ':' :: a.toList := by
  simp only [FQN.fullname]
  show ((m ++ "::") ++ a).data = m.data ++ ':' :: ':' :: a.data
  rw [String.data_append, String.data_append]
  show (m.data ++ [':', ':']) ++ a.data = _
  rw [List.append_assoc]
  rfl

/-- C4, amended: for identifiers whose components contain no occurrence
of the `"::"` separator and whose module path does not end in a colon,
Python equality (comparison of the joined textual forms) coincides with
component-wise equality, equal identifiers hash equally, the textual
form contains exactly one separator occurrence, and parsing the textual
form recovers the same component pair. -/
theorem c4_identifier_amended (m a m' a' : String)
    (hm : countSep m.toList = 0) (hml : lastIsColon m.toList = false)
    (ha : countSep a.toList = 0)
    (hm' : countSep m'.toList = 0) (hml' : lastIsColon m'.toList = false)
    (ha' : countSep a'.toList = 0) :
    (FQN.pyEq ⟨m, a⟩ ⟨m', a'⟩ = true ↔ (m = m' ∧ a = a')) ∧
    (FQN.pyEq ⟨m, a⟩ ⟨m', a'⟩ = true →
      FQN.pyHash ⟨m, a⟩ = FQN.pyHash ⟨m', a'⟩) ∧
    countSep (FQN.fullname ⟨m, a⟩).toList = 1 ∧
    parseFQN (FQN.fullname ⟨m, a⟩) = some ⟨m, a⟩ := by
  have hsplit : splitSep (FQN.fullname ⟨m, a⟩).toList = [m.toList, a.toList] := by
    rw [fullname_toList]
    exact splitSep_join a.toList ha m.toList hm hml
  have hsplit' : splitSep (FQN.fullname ⟨m', a'⟩).toList = [m'.toList, a'.toList] := by
    rw [fullname_toList]
    exact splitSep_join a'.toList ha' m'.toList hm' hml'
  have hcount : countSep (FQN.fullname ⟨m, a⟩).toList = 1 := by
    rw [fullname_toList]
    exact countSep_join a.toList ha m.toList hm hml
  refine ⟨⟨?_, ?_⟩, ?_, hcount, ?_⟩
  · intro h
    have hf : FQN.fullname ⟨m, a⟩ = FQN.fullname ⟨m', a'⟩ := by
      simpa [FQN.pyEq] using h
    rw [hf, hsplit'] at hsplit
    simp only [List.cons.injEq, and_true] at hsplit
    exact ⟨(String.toList_inj.mp hsplit.1).symm, (String.toList_inj.mp hsplit.2).symm⟩
  · rintro ⟨rfl, rfl⟩
    exact pyEq_refl _
  · intro h
    have hf : FQN.fullname ⟨m, a⟩ = FQN.fullname ⟨m', a'⟩ := by
      simpa [FQN.pyEq] using h
    simp only [FQN.pyHash, hf]
  · simp only [parseFQN, hcount, hsplit, if_true]
    rfl

/-- Counterexample to C4 as stated: `FQN(modname="x", attr=":y")` and
`FQN(modname="x:", attr="y")` are equal under Python's
fullname-comparing `__eq__` yet their components differ, and parsing
the textual form of the second yields the first pair, so the round-trip
fails. -/
theorem c4_identifier_counterexample :
    FQN.pyEq ⟨"x", ":y"⟩ ⟨"x:", "y"⟩ = true ∧
    ¬((⟨"x", ":y"⟩ : FQN) = ⟨"x:", "y"⟩) ∧
    parseFQN (FQN.fullname ⟨"x:", "y"⟩) = some ⟨"x", ":y"⟩ ∧
    ¬(parseFQN (FQN.fullname ⟨"x:", "y"⟩) = some ⟨"x:", "y"⟩) := by decide

/-- Witness for C4's amended theorem at a concrete identifier with a
dotted module path. -/
theorem c4_identifier_amended_witness :
    FQN.pyEq ⟨"a.b", "c"⟩ ⟨"a.b", "c"⟩ = true ∧
    countSep (FQN.fullname ⟨"a.b", "c"⟩).toList = 1 ∧
    parseFQN (FQN.fullname ⟨"a.b", "c"⟩) = some ⟨"a.b", "c"⟩ := by
  have h := c4_identifier_amended "a.b" "c" "a.b" "c" (by decide) (by decide)
    (by decide) (by decide) (by decide) (by decide)
  exact ⟨h.1.mpr ⟨rfl, rfl⟩, h.2.2.1, h.2.2.2⟩

end Spy
